import Mathlib

/-!
# Verification of the JCacheX benchmark results analysis pipeline

This file is a shallow embedding of the benchmark results analysis code of the
jcachex repository (the files benchmarks/analyze-results.py,
benchmarks/enhanced_parse_results.py and benchmarks/enhanced_analysis_generator.py),
together with theorems settling the frozen claims C1..C10 about that code.

Python floats are modelled as rationals, Python dictionaries as functions into
Option, and JSON fields that may be absent or non-numeric as nested Options.
All definitions use structural recursion over character lists so that concrete
runs of the embedded code can be evaluated inside proofs.
-/

/-! ## Character and substring helpers

Python's substring test (the `in` operator) and the fragments of `re.search`
used by the code (literal patterns, and patterns of the form A.*B over
newline-free benchmark names) are modelled over character lists.
-/

/-- ASCII word character, the character class matched by a regex word token in
the benchmark files (benchmark names, modes and units are ASCII). -/
def isWordChar (c : Char) : Bool := c.isAlphanum || c == '_'

/-- Does the first list occur at the head of the second list? -/
def leadsList : List Char → List Char → Bool
  | [], _ => true
  | _ :: _, [] => false
  | p :: ps, c :: cs => p == c && leadsList ps cs

/-- Does the pattern occur (contiguously) anywhere in the list?  This is
Python's substring containment test. -/
def listOccurs (pat : List Char) : List Char → Bool
  | [] => leadsList pat []
  | c :: rest => leadsList pat (c :: rest) || listOccurs pat rest

/-- Substring containment on strings: Python's `pat in s`. -/
def occursInStr (pat s : String) : Bool := listOccurs pat.toList s.toList

/-- Does p1 occur somewhere, with p2 occurring at or after the end of that
occurrence of p1?  This is re.search of the pattern p1.*p2 on a newline-free
string. -/
def occursSeqList (p1 p2 : List Char) : List Char → Bool
  | [] => leadsList p1 [] && listOccurs p2 []
  | c :: rest =>
    (leadsList p1 (c :: rest) && listOccurs p2 ((c :: rest).drop p1.length))
      || occursSeqList p1 p2 rest

/-- String version of occursSeqList. -/
def occursSeqStr (p1 p2 s : String) : Bool := occursSeqList p1.toList p2.toList s.toList

/-- The remainder of the list after the first occurrence of the pattern, or
none when the pattern does not occur. -/
def afterFirstOcc (pat : List Char) : List Char → Option (List Char)
  | [] => if leadsList pat [] then some [] else none
  | c :: rest =>
    if leadsList pat (c :: rest) then some ((c :: rest).drop pat.length)
    else afterFirstOcc pat rest

/-- The first maximal run of decimal digits in the list, or none. -/
def firstDigitRun : List Char → Option (List Char)
  | [] => none
  | c :: rest =>
    if c.isDigit then some (c :: rest.takeWhile Char.isDigit) else firstDigitRun rest

/-- Decimal digits to a natural number, with an accumulator. -/
def digitsToNat : List Char → Nat → Nat
  | [], acc => acc
  | c :: rest, acc => digitsToNat rest (acc * 10 + (c.toNat - 48))

/-- Split a character list on a separator character; mirrors Python
str.split(sep), including the empty-group behaviour. -/
def splitOnChar (sep : Char) : List Char → List (List Char)
  | [] => [[]]
  | c :: rest =>
    let r := splitOnChar sep rest
    if c == sep then [] :: r
    else
      match r with
      | [] => [[c]]
      | g :: gs => (c :: g) :: gs

/-- ASCII lower-casing of a character list (Python str.lower on the ASCII
benchmark names). -/
def lowerList (l : List Char) : List Char := l.map Char.toLower

/-- Lower-casing on strings. -/
def toLowerStr (s : String) : String := String.mk (lowerList s.toList)

/-! ## Identifier classification (enhanced_parse_results.py, class BenchmarkResult)

BenchmarkResult._extract_cache_implementation and
BenchmarkResult._extract_operation_type both start from
benchmark_name.split('.')[-1].lower(); that trailing lower-cased segment is
method_name below.
-/

/-- The lower-cased trailing segment of a dotted benchmark identifier:
benchmark_name.split('.')[-1].lower(). -/
def method_name (benchmark_name : String) : String :=
  toLowerStr (String.mk ((splitOnChar '.' benchmark_name.toList).getLastD []))

/-- The JCacheX profile substring table of _extract_cache_implementation, in
the insertion (iteration) order of the Python dict. -/
def jcachex_profiles : List (String × String) :=
  [("jcachexdefault", "JCacheX-Default"),
   ("jcachexreadheavy", "JCacheX-ReadHeavy"),
   ("jcachexwriteheavy", "JCacheX-WriteHeavy"),
   ("jcachexmemoryefficient", "JCacheX-MemoryEfficient"),
   ("jcachexhighperformance", "JCacheX-HighPerformance"),
   ("jcachexsessioncache", "JCacheX-SessionCache"),
   ("jcachexapicache", "JCacheX-ApiCache"),
   ("jcachexcomputecache", "JCacheX-ComputeCache"),
   ("jcachexmloptimized", "JCacheX-MlOptimized"),
   ("jcachexzerocopy", "JCacheX-ZeroCopy"),
   ("jcachexhardwareoptimized", "JCacheX-HardwareOptimized"),
   ("jcachexdistributed", "JCacheX-Distributed")]

/-- BenchmarkResult._extract_cache_implementation: first the JCacheX profile
table is scanned in order, then the other-implementation substring rules, with
"jcache" tested last; no match yields "Unknown".  The Python local variable
method_name is inlined. -/
def extract_cache_implementation (benchmark_name : String) : String :=
  match jcachex_profiles.find? (fun kv => occursInStr kv.1 (method_name benchmark_name)) with
  | some kv => kv.2
  | none =>
    if occursInStr "caffeine" (method_name benchmark_name) then "Caffeine"
    else if occursInStr "ehcache" (method_name benchmark_name) then "EhCache"
    else if occursInStr "cache2k" (method_name benchmark_name) then "Cache2k"
    else if occursInStr "concurrentmap" (method_name benchmark_name) then "ConcurrentHashMap"
    else if occursInStr "jcache" (method_name benchmark_name) then "JCache"
    else "Unknown"

/-- BenchmarkResult._extract_operation_type: the ordered substring rules over
the lower-cased trailing segment, stress and mixed variants before the generic
get/put/remove/mixed tokens; no match yields "UNKNOWN". -/
def extract_operation_type (benchmark_name : String) : String :=
  if occursInStr "extremecontention" (method_name benchmark_name) then "EXTREME_CONTENTION"
  else if occursInStr "memorypressure" (method_name benchmark_name) then "MEMORY_PRESSURE"
  else if occursInStr "zipfian" (method_name benchmark_name) then "ZIPFIAN_ACCESS"
  else if occursInStr "evictionstress" (method_name benchmark_name) then "EVICTION_STRESS"
  else if occursInStr "mixedread" (method_name benchmark_name) then "MIXED_READ"
  else if occursInStr "mixedwrite" (method_name benchmark_name) then "MIXED_WRITE"
  else if occursInStr "mixedremove" (method_name benchmark_name) then "MIXED_REMOVE"
  else if occursInStr "sustainedload" (method_name benchmark_name) then "SUSTAINED_LOAD"
  else if occursInStr "gcpressure" (method_name benchmark_name) then "GC_PRESSURE"
  else if occursInStr "memoryleaktest" (method_name benchmark_name) then "MEMORY_LEAK_TEST"
  else if occursInStr "burstload" (method_name benchmark_name) then "BURST_LOAD"
  else if occursInStr "get" (method_name benchmark_name) then
    (if occursInStr "throughput" (method_name benchmark_name) then "GET_THROUGHPUT"
     else "GET_LATENCY")
  else if occursInStr "put" (method_name benchmark_name) then
    (if occursInStr "throughput" (method_name benchmark_name) then "PUT_THROUGHPUT"
     else "PUT_LATENCY")
  else if occursInStr "remove" (method_name benchmark_name) then "REMOVE_LATENCY"
  else if occursInStr "mixed" (method_name benchmark_name) then "MIXED_THROUGHPUT"
  else if occursInStr "readheavy" (method_name benchmark_name) then "READ_HEAVY"
  else if occursInStr "writeheavy" (method_name benchmark_name) then "WRITE_HEAVY"
  else if occursInStr "highcontention" (method_name benchmark_name) then "HIGH_CONTENTION"
  else "UNKNOWN"

/-- The first digit run after the first occurrence of "threads", as a natural
number: the captured group of re.search of threads.*?(digits), which matches
exactly when some digit follows some occurrence of "threads". -/
def firstNumAfterThreads (s : String) : Option ℕ :=
  match afterFirstOcc "threads".toList s.toList with
  | some rest => (firstDigitRun rest).map (fun ds => digitsToNat ds 0)
  | none => none

/-- EnhancedBenchmarkParser._extract_thread_count: the ordered thread-count
pattern table over the lower-cased identifier, first match wins, then the
generic threads-digit search, defaulting to 1. -/
def extract_thread_count (benchmark_name : String) : ℕ :=
  if occursInStr "32t" (toLowerStr benchmark_name) then 32
  else if occursInStr "16t" (toLowerStr benchmark_name) then 16
  else if occursInStr "8t" (toLowerStr benchmark_name) then 8
  else if occursInStr "4t" (toLowerStr benchmark_name) then 4
  else if occursInStr "1t" (toLowerStr benchmark_name) then 1
  else if occursSeqStr "threads" "32" (toLowerStr benchmark_name) then 32
  else if occursSeqStr "threads" "16" (toLowerStr benchmark_name) then 16
  else if occursSeqStr "threads" "8" (toLowerStr benchmark_name) then 8
  else if occursSeqStr "threads" "4" (toLowerStr benchmark_name) then 4
  else if occursInStr "threads" (toLowerStr benchmark_name) then
    match firstNumAfterThreads (toLowerStr benchmark_name) with
    | some k => k
    | none => 1
  else 1

/-! ## Structured per-run records (enhanced_parse_results.py,
EnhancedBenchmarkParser._parse_suite_results)

A primaryMetric field that is absent is none; a field that is present but on
which Python float() raises is some none; a numeric (or numeric-string) field
is some (some q).  scoreUnit is read unconditionally by the code, so it is
modelled as a plain string.
-/

/-- The primaryMetric object of one structured benchmark entry. -/
structure PrimaryMetric where
  score : Option (Option ℚ)
  scoreError : Option (Option ℚ)
  scoreUnit : String
deriving DecidableEq

/-- Score extraction of _parse_suite_results: float(score), multiplied by 1e9
when the unit tag is "ops/ns"; a missing or non-numeric score yields 0.0. -/
def parse_score (m : PrimaryMetric) : ℚ :=
  match m.score with
  | some (some q) => if m.scoreUnit = "ops/ns" then q * 1000000000 else q
  | _ => 0

/-- Error extraction of _parse_suite_results, same shape as parse_score. -/
def parse_error (m : PrimaryMetric) : ℚ :=
  match m.scoreError with
  | some (some q) => if m.scoreUnit = "ops/ns" then q * 1000000000 else q
  | _ => 0

/-- Unit rewriting of _parse_suite_results: "ops/ns" becomes "ops/s", every
other unit tag passes through. -/
def parse_unit (m : PrimaryMetric) : String :=
  if m.scoreUnit = "ops/ns" then "ops/s" else m.scoreUnit

/-- The unit normalization of _parse_suite_results as one function on a
(score, error, unit) triple of already-parsed values: multiply by 1e9 and
rewrite the unit when the tag is "ops/ns", otherwise pass through. -/
def normalize_triple (score error : ℚ) (unit_tag : String) : ℚ × ℚ × String :=
  if unit_tag = "ops/ns" then (score * 1000000000, error * 1000000000, "ops/s")
  else (score, error, unit_tag)

/-- One structured benchmark entry: the benchmark identifier, the primary
metric, and the optional JMH threads field. -/
structure JmhEntry where
  benchmark : String
  primaryMetric : PrimaryMetric
  threads : Option ℕ
deriving DecidableEq

/-- A parsed benchmark record (class BenchmarkResult of
enhanced_parse_results.py), with the fields computed by its constructor. -/
structure BenchmarkResult where
  benchmark_name : String
  score : ℚ
  error : ℚ
  unit : String
  suite_type : String
  threads : ℕ
  cache_impl : String
  operation_type : String
  operation_key : String
deriving DecidableEq

/-- Construction of a BenchmarkResult from one structured entry, as done in
the body of _parse_suite_results followed by BenchmarkResult.__init__: score,
error and unit from the primary metric (with the ops/ns conversion), threads
from result.get('threads', 1), classification from the benchmark name, and
the composite operation key operation_type_threadsT. -/
def mkBenchmarkResult (suite_type : String) (e : JmhEntry) : BenchmarkResult :=
  { benchmark_name := e.benchmark
    score := parse_score e.primaryMetric
    error := parse_error e.primaryMetric
    unit := parse_unit e.primaryMetric
    suite_type := suite_type
    threads := e.threads.getD 1
    cache_impl := extract_cache_implementation e.benchmark
    operation_type := extract_operation_type e.benchmark
    operation_key :=
      extract_operation_type e.benchmark ++ "_" ++ toString (e.threads.getD 1) ++ "T" }

/-- The nested aggregation structure
suite_type -> cache_impl -> operation_key -> BenchmarkResult of
EnhancedBenchmarkParser.results. -/
def Agg : Type := String → String → String → Option BenchmarkResult

/-- The empty aggregation structure. -/
def emptyAgg : Agg := fun _ _ _ => none

/-- One dictionary store
results[suite_type][cache_impl][operation_key] = benchmark_result. -/
def storeResult (results : Agg) (suite_type : String) (r : BenchmarkResult) : Agg :=
  fun s i k =>
    if s = suite_type ∧ i = r.cache_impl ∧ k = r.operation_key then some r
    else results s i k

/-- The entry loop of _parse_suite_results over one suite's list of structured
entries: each entry is turned into a BenchmarkResult and stored, in order. -/
def parse_suite_entries (results : Agg) (suite_type : String)
    (entries : List JmhEntry) : Agg :=
  entries.foldl (fun acc e => storeResult acc suite_type (mkBenchmarkResult suite_type e)) results

/-! ## Free-text result lines (analyze-results.py, parse_jmh_results)

parse_jmh_results matches the regex
(word.wordsdots) ws (word) ws (digits) ws (digitsdots) ws pm ws (digitsdots) ws (word/word)
against the report text and converts score and error with float().  The
per-line parse below is that match for a single-space-separated line; numeric
tokens are read as plain decimals (the only numeric forms JMH emits; on other
digit-dot combinations Python float() would raise an uncaught exception, which
is modelled as a failed parse). -/

/-- A decimal token digits or digits.digits as an exact rational, none on any
other character combination. -/
def parseDecimal (l : List Char) : Option ℚ :=
  match splitOnChar '.' l with
  | [a] => if a ≠ [] ∧ a.all Char.isDigit then some ((digitsToNat a 0 : ℕ) : ℚ) else none
  | [a, b] =>
    if a ≠ [] ∧ b ≠ [] ∧ a.all Char.isDigit ∧ b.all Char.isDigit then
      some (((digitsToNat a 0 : ℕ) : ℚ) + ((digitsToNat b 0 : ℕ) : ℚ) / (10 ^ b.length))
    else none
  | _ => none

/-- A nonempty all-word-character token (the regex word token). -/
def isWordToken (l : List Char) : Bool := !l.isEmpty && l.all isWordChar

/-- A nonempty all-digits token. -/
def isDigitsToken (l : List Char) : Bool := !l.isEmpty && l.all Char.isDigit

/-- The dotted benchmark identifier token word.wordsdots: word characters and
dots only, starting with a word character, with a dot before the last
character. -/
def isBenchToken (l : List Char) : Bool :=
  match l with
  | [] => false
  | c :: _ =>
    isWordChar c && l.all (fun d => isWordChar d || d == '.') && listOccurs ['.'] l.dropLast

/-- The combined unit token word/word. -/
def isUnitToken (l : List Char) : Bool :=
  match splitOnChar '/' l with
  | [a, b] => isWordToken a && isWordToken b
  | _ => false

/-- One parsed free-text result line of parse_jmh_results. -/
structure JmhRecord where
  benchmark : String
  mode : String
  count : ℕ
  score : ℚ
  error : ℚ
  unit : String
deriving DecidableEq

/-- The per-line parse of parse_jmh_results: the seven whitespace-separated
fields identifier, mode, count, score, a literal plus-minus sign, error and
unit, with the numeric conversions of the Python code. -/
def parse_jmh_result_line (line : String) : Option JmhRecord :=
  match splitOnChar ' ' line.toList with
  | [b, m, c, s, pm, e, u] =>
    if isBenchToken b && isWordToken m && isDigitsToken c && (pm == ['±']) && isUnitToken u then
      match parseDecimal s, parseDecimal e with
      | some sc, some er =>
        some ⟨String.mk b, String.mk m, digitsToNat c 0, sc, er, String.mk u⟩
      | _, _ => none
    else none
  | _ => none

/-! ## Gap analysis (enhanced_analysis_generator.py, class JMHResultParser) -/

/-- The outcome of JMHResultParser.calculate_performance_gap: the
"Cannot compare" sentinel, a slower or faster ratio (the exact rational whose
one-decimal rendering the code prints), or the division-by-zero fault the
Python expression 1/ratio raises when ratio is zero. -/
inductive Gap where
  | cannotCompare : Gap
  | slower : ℚ → Gap
  | faster : ℚ → Gap
  | divZeroFault : Gap
deriving DecidableEq

/-- JMHResultParser.calculate_performance_gap: baseline at most 0 cannot be
compared; otherwise ratio = current/baseline gives "ratio x slower" when
ratio exceeds 1, else "1/ratio x faster", the latter raising a
ZeroDivisionError when ratio is 0 (current_score 0). -/
def calculate_performance_gap (baseline_score current_score : ℚ) : Gap :=
  if baseline_score ≤ 0 then Gap.cannotCompare
  else if 1 < current_score / baseline_score then Gap.slower (current_score / baseline_score)
  else if current_score / baseline_score = 0 then Gap.divZeroFault
  else Gap.faster (1 / (current_score / baseline_score))

/-- One cell of JMHResultParser.generate_gap_analysis: either the "N/A"
sentinel or a computed gap. -/
inductive GapCell where
  | na : GapCell
  | val : Gap → GapCell
deriving DecidableEq

/-- The score a summary entry carries in generate_performance_summary: the
metric's score when present, 0 when the metric is missing (the code stores
score 0 with the "N/A" formatting for a missing metric). -/
def summary_score (metric : Option ℚ) : ℚ := metric.getD 0

/-- One operation's gap in generate_gap_analysis: the gap is computed only
when both the baseline's and the candidate's summary scores are positive,
otherwise the cell is "N/A". -/
def gap_analysis_cell (baseline current : Option ℚ) : GapCell :=
  if 0 < summary_score baseline ∧ 0 < summary_score current then
    GapCell.val (calculate_performance_gap (summary_score baseline) (summary_score current))
  else GapCell.na

/-- Is a gap outcome a faster report? -/
def gapIsFaster : Gap → Bool
  | Gap.faster _ => true
  | _ => false

/-- Is a gap outcome a slower report? -/
def gapIsSlower : Gap → Bool
  | Gap.slower _ => true
  | _ => false

/-- Do two gap outcomes report opposite faster/slower directions? -/
def directionSwapped (g1 g2 : Gap) : Bool :=
  (gapIsFaster g1 && gapIsSlower g2) || (gapIsSlower g1 && gapIsFaster g2)

/-- The numeric ratio a slower or faster gap reports (0 for the sentinels). -/
def ratioOfGap : Gap → ℚ
  | Gap.slower r => r
  | Gap.faster r => r
  | _ => 0

/-! ## Composite scoring (enhanced_parse_results.py,
class ComprehensiveResultsAnalyzer)

The analyzer reads the nested results structure only through presence tests
(suite in results and impl in results[suite], modelled by implInSuite) and
operation-key score lookups (modelled by opScore, none when the key is
absent). -/

/-- The aggregated results as read by ComprehensiveResultsAnalyzer. -/
structure AggResults where
  implInSuite : String → String → Bool
  opScore : String → String → String → Option ℚ

/-- ComprehensiveResultsAnalyzer._calculate_suite_score: throughput scores
min(GET_THROUGHPUT_1T/1e6, 100), basic operations scores
max(0, 100 - GET_LATENCY_1T), each None when the key is missing or its score
is falsy (0); every other suite scores the default 50. -/
def calculate_suite_score (r : AggResults) (cache_impl suite_type : String) : Option ℚ :=
  if suite_type = "throughput" then
    match r.opScore suite_type cache_impl "GET_THROUGHPUT_1T" with
    | some t => if t = 0 then none else some (min (t / 1000000) 100)
    | none => none
  else if suite_type = "basic_operations" then
    match r.opScore suite_type cache_impl "GET_LATENCY_1T" with
    | some l => if l = 0 then none else some (max 0 (100 - l))
    | none => none
  else some 50

/-- One weighted suite block of _calculate_overall_score: when the
implementation is present in the suite and the suite score is truthy (neither
None nor 0), the list holds the weighted score, else it is empty. -/
def suite_contribution (r : AggResults) (cache_impl suite_type : String) (weight : ℚ) : List ℚ :=
  if r.implInSuite suite_type cache_impl then
    match calculate_suite_score r cache_impl suite_type with
    | some s => if s = 0 then [] else [s * weight]
    | none => []
  else []

/-- The hardcore_stress plus endurance_tests accumulator of
_calculate_overall_score (each addend is the suite score or 0 when absent). -/
def hardcore_endurance_score (r : AggResults) (cache_impl : String) : ℚ :=
  (if r.implInSuite "hardcore_stress" cache_impl then
    (calculate_suite_score r cache_impl "hardcore_stress").getD 0
   else 0)
  + (if r.implInSuite "endurance_tests" cache_impl then
      (calculate_suite_score r cache_impl "endurance_tests").getD 0
     else 0)

/-- The scores list built by _calculate_overall_score: the weighted blocks
basic 0.3, throughput 0.4, concurrent 0.2, and half the hardcore plus
endurance accumulator times 0.1 when that accumulator is positive. -/
def overall_score_terms (r : AggResults) (cache_impl : String) : List ℚ :=
  suite_contribution r cache_impl "basic_operations" (3 / 10) ++
  suite_contribution r cache_impl "throughput" (4 / 10) ++
  suite_contribution r cache_impl "concurrent_operations" (2 / 10) ++
  (if 0 < hardcore_endurance_score r cache_impl then
    [hardcore_endurance_score r cache_impl / 2 * (1 / 10)]
   else [])

/-- ComprehensiveResultsAnalyzer._calculate_overall_score: the collected
weighted scores are summed; an empty collection yields None. -/
def calculate_overall_score (r : AggResults) (cache_impl : String) : Option ℚ :=
  if overall_score_terms r cache_impl = [] then none
  else some (overall_score_terms r cache_impl).sum

/-! ## Concrete inputs used by the claim theorems -/

/-- An entry whose identifier carries the thread token 8t but whose threads
field is absent. -/
def c3Entry : JmhEntry :=
  ⟨"x.get8t", ⟨some (some 1), some (some 0), "ns/op"⟩, none⟩

/-- An entry with a negative reported score. -/
def c4Entry : JmhEntry :=
  ⟨"a.get", ⟨some (some (-5)), some (some 0), "ns/op"⟩, none⟩

/-- An entry whose score field is present but not numeric. -/
def c4BadScoreEntry : JmhEntry :=
  ⟨"a.get", ⟨some none, some (some 0), "ns/op"⟩, none⟩

/-- Two entries sharing the same benchmark name (hence the same classification
and composite key) with different scores. -/
def c5Entry1 : JmhEntry :=
  ⟨"b.put", ⟨some (some 3), some (some 0), "ns/op"⟩, none⟩

/-- The later of the two entries sharing a key. -/
def c5Entry2 : JmhEntry :=
  ⟨"b.put", ⟨some (some 4), some (some 0), "ns/op"⟩, none⟩

/-- Aggregated results where one implementation has data in exactly one suite,
basic_operations, with a GET latency of 150 ns. -/
def c9Results : AggResults :=
  { implInSuite := fun suite_type impl =>
      suite_type == "basic_operations" && impl == "Caffeine"
    opScore := fun suite_type impl key =>
      if suite_type = "basic_operations" ∧ impl = "Caffeine" ∧ key = "GET_LATENCY_1T" then
        some 150
      else none }

/-- Aggregated results where the stored GET latency is negative (such records
are storable, see claim C4). -/
def c9NegResults : AggResults :=
  { implInSuite := fun suite_type impl =>
      suite_type == "basic_operations" && impl == "Caffeine"
    opScore := fun suite_type impl key =>
      if suite_type = "basic_operations" ∧ impl = "Caffeine" ∧ key = "GET_LATENCY_1T" then
        some (-1000)
      else none }

/-- Aggregated results with data only in the concurrent_operations suite and
no stored operation scores at all. -/
def c9WitnessResults : AggResults :=
  { implInSuite := fun suite_type _ => suite_type == "concurrent_operations"
    opScore := fun _ _ _ => none }

/-- The primary metric of the claim C2 scenario entry
x.jcachexZeroCopyGetCold with score string 2.1, error string 0.05 and unit
tag ops/ns. -/
def c2Metric : PrimaryMetric := ⟨some (some 2.1), some (some 0.05), "ops/ns"⟩

/-- The primary metric used by the claim C2 witness: numeric score, missing
error, unit tag ops/ns. -/
def c2WitnessMetricA : PrimaryMetric := ⟨some (some 7), none, "ops/ns"⟩

/-- The primary metric used by the claim C2 witness: numeric score,
non-numeric error, ordinary unit tag. -/
def c2WitnessMetricB : PrimaryMetric := ⟨some (some 7), some none, "ns/op"⟩

/-- The fixed implementation list
ComprehensiveResultsAnalyzer.cache_implementations over which the ranking
iterates. -/
def cache_implementations : List String :=
  ["JCacheX-Default", "JCacheX-ReadHeavy", "JCacheX-WriteHeavy",
   "JCacheX-MemoryEfficient", "JCacheX-HighPerformance",
   "JCacheX-SessionCache", "JCacheX-ApiCache", "JCacheX-ComputeCache",
   "JCacheX-MlOptimized", "JCacheX-ZeroCopy", "JCacheX-HardwareOptimized",
   "JCacheX-Distributed",
   "Caffeine", "EhCache", "Cache2k", "ConcurrentHashMap", "JCache"]

/-- The overall_scores collection built by
ComprehensiveResultsAnalyzer._generate_cross_suite_comparison: for each
implementation in cache_implementations, its composite score is computed and
the pair is kept only when that score is truthy (neither None nor 0); only
these pairs enter the sorted ranking. -/
def cross_suite_overall_scores (r : AggResults) : List (String × ℚ) :=
  cache_implementations.filterMap (fun cache_impl =>
    match calculate_overall_score r cache_impl with
    | some s => if s = 0 then none else some (cache_impl, s)
    | none => none)

/-- Aggregated results in which no implementation has data in any suite. -/
def c9NoDataResults : AggResults :=
  { implInSuite := fun _ _ => false
    opScore := fun _ _ _ => none }

/-! ## Helper lemmas about the aggregation structure -/

/-- Processing a list of entries with one more entry at the end stores that
entry's record last. -/
theorem parse_suite_entries_append (results : Agg) (suite_type : String)
    (l : List JmhEntry) (e : JmhEntry) :
    parse_suite_entries results suite_type (l ++ [e])
      = storeResult (parse_suite_entries results suite_type l) suite_type
          (mkBenchmarkResult suite_type e) := by
  unfold parse_suite_entries
  rw [List.foldl_append]
  rfl

/-- A store is visible at its own (suite, implementation, operation key). -/
theorem storeResult_lookup (results : Agg) (suite_type : String) (r : BenchmarkResult) :
    storeResult results suite_type r suite_type r.cache_impl r.operation_key = some r := by
  simp [storeResult]

/-! ## Claim C10 -/

/-- Claim C10: unit normalization is idempotent.  Applying the
(score, error, unit) normalization of _parse_suite_results to any of its own
outputs returns that output unchanged; in particular a triple whose unit is
already the canonical "ops/s" passes through untouched, and the triples the
structured-entry parse produces are already fixed points of the
normalization. -/
theorem claim_C10_idempotent :
    (∀ (s e : ℚ) (u : String),
      normalize_triple (normalize_triple s e u).1 (normalize_triple s e u).2.1
          (normalize_triple s e u).2.2
        = normalize_triple s e u) ∧
    (∀ s e : ℚ, normalize_triple s e "ops/s" = (s, e, "ops/s")) ∧
    (∀ m : PrimaryMetric,
      normalize_triple (parse_score m) (parse_error m) (parse_unit m)
        = (parse_score m, parse_error m, parse_unit m)) := by
  have hne : ("ops/s" : String) ≠ "ops/ns" := by decide
  refine ⟨?_, ?_, ?_⟩
  · intro s e u
    by_cases h : u = "ops/ns"
    · subst h
      simp [normalize_triple, hne]
    · simp [normalize_triple, h]
  · intro s e
    simp [normalize_triple, hne]
  · intro m
    by_cases h : m.scoreUnit = "ops/ns"
    · simp [normalize_triple, parse_unit, h, hne]
    · simp [normalize_triple, parse_unit, h]

/-! ## Claim C2 -/

/-- Claim C2: for every structured entry, a unit tag "ops/ns" makes the parse
multiply the numeric score and error by 1e9 and store the unit "ops/s"; any
other unit tag passes score, error and unit through unchanged; a missing or
non-numeric score or error field defaults to 0 (totality of the parse
functions models the absence of an exception); and the scenario metric of
entry x.jcachexZeroCopyGetCold with score 2.1 ops/ns yields score 2.1e9 with
unit "ops/s". -/
theorem claim_C2_unit_normalization :
    (∀ (m : PrimaryMetric) (q : ℚ), m.score = some (some q) → m.scoreUnit = "ops/ns" →
      parse_score m = q * 1000000000) ∧
    (∀ (m : PrimaryMetric) (q : ℚ), m.scoreError = some (some q) → m.scoreUnit = "ops/ns" →
      parse_error m = q * 1000000000) ∧
    (∀ m : PrimaryMetric, m.scoreUnit = "ops/ns" → parse_unit m = "ops/s") ∧
    (∀ (m : PrimaryMetric) (q : ℚ), m.score = some (some q) → m.scoreUnit ≠ "ops/ns" →
      parse_score m = q) ∧
    (∀ (m : PrimaryMetric) (q : ℚ), m.scoreError = some (some q) → m.scoreUnit ≠ "ops/ns" →
      parse_error m = q) ∧
    (∀ m : PrimaryMetric, m.scoreUnit ≠ "ops/ns" → parse_unit m = m.scoreUnit) ∧
    (∀ m : PrimaryMetric, m.score = none ∨ m.score = some none → parse_score m = 0) ∧
    (∀ m : PrimaryMetric, m.scoreError = none ∨ m.scoreError = some none → parse_error m = 0) ∧
    (parse_score c2Metric = 2100000000 ∧ parse_error c2Metric = 50000000 ∧
      parse_unit c2Metric = "ops/s") := by
  refine ⟨?_, ?_, ?_, ?_, ?_, ?_, ?_, ?_, ?_, ?_, ?_⟩
  · intro m q hsc hu
    simp [parse_score, hsc, hu]
  · intro m q hsc hu
    simp [parse_error, hsc, hu]
  · intro m hu
    simp [parse_unit, hu]
  · intro m q hsc hu
    simp [parse_score, hsc, hu]
  · intro m q hsc hu
    simp [parse_error, hsc, hu]
  · intro m hu
    simp [parse_unit, hu]
  · intro m h
    rcases h with h | h <;> simp [parse_score, h]
  · intro m h
    rcases h with h | h <;> simp [parse_error, h]
  · have h : parse_score c2Metric = (2.1 : ℚ) * 1000000000 := rfl
    rw [h]; norm_num
  · have h : parse_error c2Metric = (0.05 : ℚ) * 1000000000 := rfl
    rw [h]; norm_num
  · decide

/-- Witness for claim C2: the parse functions evaluated through the theorem at
concrete metrics with an ops/ns unit, an ordinary unit, a missing error field
and a non-numeric error field. -/
theorem claim_C2_witness :
    parse_score c2WitnessMetricA = 7 * 1000000000 ∧
    parse_score c2WitnessMetricB = 7 ∧
    parse_unit c2WitnessMetricA = "ops/s" ∧
    parse_unit c2WitnessMetricB = "ns/op" ∧
    parse_error c2WitnessMetricA = 0 ∧
    parse_error c2WitnessMetricB = 0 :=
  ⟨claim_C2_unit_normalization.1 c2WitnessMetricA 7 rfl rfl,
   claim_C2_unit_normalization.2.2.2.1 c2WitnessMetricB 7 rfl (by decide),
   claim_C2_unit_normalization.2.2.1 c2WitnessMetricA rfl,
   claim_C2_unit_normalization.2.2.2.2.2.1 c2WitnessMetricB (by decide),
   claim_C2_unit_normalization.2.2.2.2.2.2.2.1 c2WitnessMetricA (Or.inl rfl),
   claim_C2_unit_normalization.2.2.2.2.2.2.2.1 c2WitnessMetricB (Or.inr rfl)⟩

/-! ## Claim C1 -/

/-- Counterexample for claim C1: on the scenario line's identifier
caffeine.getHot, the implementation classifier of enhanced_parse_results.py
does not return "Caffeine" (it lower-cases the segment after the last dot,
getHot, which contains no implementation token). -/
theorem claim_C1_counterexample :
    extract_cache_implementation "caffeine.getHot" ≠ "Caffeine" := by decide

/-- Claim C1 as amended: parsing the free-text line
"caffeine.getHot avgt 10 15.230 ± 0.412 ns/op" yields the record with
benchmark caffeine.getHot, mode avgt, count 10, score 15.23, error 0.412 and
unit ns/op, and classifying the identifier with the classifiers of
enhanced_parse_results.py yields implementation "Unknown" (not "Caffeine")
and operation "GET_LATENCY". -/
theorem claim_C1_amended :
    parse_jmh_result_line "caffeine.getHot avgt 10 15.230 ± 0.412 ns/op"
      = some ⟨"caffeine.getHot", "avgt", 10, 15.23, 0.412, "ns/op"⟩ ∧
    extract_cache_implementation "caffeine.getHot" = "Unknown" ∧
    extract_operation_type "caffeine.getHot" = "GET_LATENCY" := by
  refine ⟨?_, by decide, by decide⟩
  have h : parse_jmh_result_line "caffeine.getHot avgt 10 15.230 ± 0.412 ns/op"
      = some ⟨"caffeine.getHot", "avgt", 10, ((15 : ℕ) : ℚ) + ((230 : ℕ) : ℚ) / (10 ^ 3),
          ((0 : ℕ) : ℚ) + ((412 : ℕ) : ℚ) / (10 ^ 3), "ns/op"⟩ := rfl
  rw [h]
  norm_num

/-! ## Claim C3 -/

/-- Counterexample for claim C3: the entry x.get8t (no threads field) carries
the explicit thread token 8t, so the identifier search yields 8, yet the
stored record's composite operation key is GET_LATENCY_1T: the aggregation
uses the entry's threads field (defaulted to 1), not the identifier-derived
thread count, because _extract_thread_count is never invoked by the parser. -/
theorem claim_C3_counterexample :
    extract_thread_count "x.get8t" = 8 ∧
    (mkBenchmarkResult "basic_operations" c3Entry).benchmark_name = "x.get8t" ∧
    (mkBenchmarkResult "basic_operations" c3Entry).operation_key = "GET_LATENCY_1T" ∧
    parse_suite_entries emptyAgg "basic_operations" [c3Entry] "basic_operations"
        "Unknown" "GET_LATENCY_1T" = some (mkBenchmarkResult "basic_operations" c3Entry) :=
  ⟨by decide, rfl, by decide, by decide⟩

/-- Claim C3 as amended: the helper _extract_thread_count searches the
identifier for the explicit tokens 32t, 16t, 8t, 4t, 1t and the embedded
threads-then-digits patterns in table order (first match wins, table order
beating string position), defaulting to 1; but the thread count that reaches
the stored record's composite operation key is the entry's threads field with
default 1, independent of the identifier. -/
theorem claim_C3_amended :
    extract_thread_count "abc.get32t" = 32 ∧
    extract_thread_count "abc.threadsrun16" = 16 ∧
    extract_thread_count "x.16t32t" = 32 ∧
    extract_thread_count "x.threadsfoo7bar" = 7 ∧
    extract_thread_count "plain.get" = 1 ∧
    (∀ (suite_type : String) (e : JmhEntry),
      (mkBenchmarkResult suite_type e).threads = e.threads.getD 1 ∧
      (mkBenchmarkResult suite_type e).operation_key
        = extract_operation_type e.benchmark ++ "_" ++ toString (e.threads.getD 1) ++ "T") :=
  ⟨by decide, by decide, by decide, by decide, by decide, fun _ _ => ⟨rfl, rfl⟩⟩

/-! ## Claim C4 -/

/-- Counterexample for claim C4: an entry whose reported score is -5 is parsed
and stored in the aggregation structure as a record with negative score; no
score-sign filtering or dropping happens in _parse_suite_results. -/
theorem claim_C4_counterexample :
    parse_suite_entries emptyAgg "basic_operations" [c4Entry] "basic_operations"
        "Unknown" "GET_LATENCY_1T" = some (mkBenchmarkResult "basic_operations" c4Entry) ∧
    (mkBenchmarkResult "basic_operations" c4Entry).score = -5 ∧
    (mkBenchmarkResult "basic_operations" c4Entry).score < 0 := by
  refine ⟨by decide, rfl, ?_⟩
  have h : (mkBenchmarkResult "basic_operations" c4Entry).score = -5 := rfl
  rw [h]
  norm_num

/-- Claim C4 as amended: every structured entry is stored as a record,
whatever the sign of its score — the entry processed last is always visible
at its own key — and an entry whose score field is present but non-numeric
(or absent) is stored with score 0 rather than dropped; only a file-level
failure discards data. -/
theorem claim_C4_amended :
    (∀ (results : Agg) (suite_type : String) (l : List JmhEntry) (e : JmhEntry),
      parse_suite_entries results suite_type (l ++ [e]) suite_type
          (mkBenchmarkResult suite_type e).cache_impl
          (mkBenchmarkResult suite_type e).operation_key
        = some (mkBenchmarkResult suite_type e)) ∧
    (∀ (suite_type : String) (e : JmhEntry), e.primaryMetric.score = some none →
      (mkBenchmarkResult suite_type e).score = 0) ∧
    (∀ (suite_type : String) (e : JmhEntry), e.primaryMetric.score = none →
      (mkBenchmarkResult suite_type e).score = 0) := by
  refine ⟨?_, ?_, ?_⟩
  · intro results suite_type l e
    rw [parse_suite_entries_append]
    exact storeResult_lookup _ suite_type (mkBenchmarkResult suite_type e)
  · intro suite_type e h
    simp [mkBenchmarkResult, parse_score, h]
  · intro suite_type e h
    simp [mkBenchmarkResult, parse_score, h]

/-- Witness for claim C4 as amended: the entry with the negative score is
stored and visible at its key, and the entry with the non-numeric score field
is stored with score 0. -/
theorem claim_C4_witness :
    parse_suite_entries emptyAgg "basic_operations" ([] ++ [c4Entry]) "basic_operations"
        (mkBenchmarkResult "basic_operations" c4Entry).cache_impl
        (mkBenchmarkResult "basic_operations" c4Entry).operation_key
      = some (mkBenchmarkResult "basic_operations" c4Entry) ∧
    (mkBenchmarkResult "basic_operations" c4BadScoreEntry).score = 0 :=
  ⟨claim_C4_amended.1 emptyAgg "basic_operations" [] c4Entry,
   claim_C4_amended.2.1 "basic_operations" c4BadScoreEntry rfl⟩

/-! ## Claim C5 -/

/-- Claim C5: last write wins.  When two entries whose records share the same
implementation and composite operation key are parsed in sequence into one
suite (any entries before, between or after them, the later entry last), the
aggregation structure holds exactly the later record at that key, never an
average or merge of the two. -/
theorem claim_C5_last_write_wins (results : Agg) (suite_type : String)
    (l1 l2 : List JmhEntry) (e1 e2 : JmhEntry)
    (himpl : (mkBenchmarkResult suite_type e2).cache_impl
      = (mkBenchmarkResult suite_type e1).cache_impl)
    (hkey : (mkBenchmarkResult suite_type e2).operation_key
      = (mkBenchmarkResult suite_type e1).operation_key) :
    parse_suite_entries results suite_type (l1 ++ e1 :: l2 ++ [e2]) suite_type
        (mkBenchmarkResult suite_type e1).cache_impl
        (mkBenchmarkResult suite_type e1).operation_key
      = some (mkBenchmarkResult suite_type e2) := by
  have hsplit : l1 ++ e1 :: l2 ++ [e2] = (l1 ++ e1 :: l2) ++ [e2] := by simp
  rw [hsplit, parse_suite_entries_append, ← himpl, ← hkey]
  exact storeResult_lookup _ suite_type (mkBenchmarkResult suite_type e2)

/-- Witness for claim C5: two concrete entries for the same benchmark b.put
with scores 3 and 4 parsed in sequence leave the score-4 record at the shared
key. -/
theorem claim_C5_witness :
    parse_suite_entries emptyAgg "basic_operations" ([] ++ c5Entry1 :: [] ++ [c5Entry2])
        "basic_operations"
        (mkBenchmarkResult "basic_operations" c5Entry1).cache_impl
        (mkBenchmarkResult "basic_operations" c5Entry1).operation_key
      = some (mkBenchmarkResult "basic_operations" c5Entry2) :=
  claim_C5_last_write_wins emptyAgg "basic_operations" [] [] c5Entry1 c5Entry2 rfl rfl

/-! ## Claim C6 -/

/-- Claim C6: implementation classification is a pure function of the raw
identifier, and whenever the lower-cased trailing segment contains a JCacheX
profile token, the returned label is that of a contained profile token (the
first in table order) — never the generic "JCache" fallback, although
"jcache" is a substring of every profile token. -/
theorem claim_C6_profile_precedence (benchmark_name key label : String)
    (hmem : (key, label) ∈ jcachex_profiles)
    (hocc : occursInStr key (method_name benchmark_name) = true) :
    (∃ k2 l2, (k2, l2) ∈ jcachex_profiles ∧
      occursInStr k2 (method_name benchmark_name) = true ∧
      extract_cache_implementation benchmark_name = l2) ∧
    extract_cache_implementation benchmark_name ≠ "JCache" ∧
    occursInStr "jcache" key = true := by
  have hfind : (jcachex_profiles.find?
      (fun kv => occursInStr kv.1 (method_name benchmark_name))).isSome = true := by
    rw [List.find?_isSome]
    exact ⟨(key, label), hmem, hocc⟩
  obtain ⟨kv, hkv⟩ := Option.isSome_iff_exists.mp hfind
  have hmem2 : kv ∈ jcachex_profiles := List.mem_of_find?_eq_some hkv
  have hp0 := List.find?_some hkv
  have hp : occursInStr kv.1 (method_name benchmark_name) = true := hp0
  have hres : extract_cache_implementation benchmark_name = kv.2 := by
    unfold extract_cache_implementation
    rw [hkv]
  have hlabels : ∀ kv2 ∈ jcachex_profiles, kv2.2 ≠ "JCache" := by decide
  have hjc : ∀ kv2 ∈ jcachex_profiles, occursInStr "jcache" kv2.1 = true := by decide
  exact ⟨⟨kv.1, kv.2, hmem2, hp, hres⟩, hres ▸ hlabels kv hmem2, hjc (key, label) hmem⟩

/-- Witness for claim C6: the scenario identifier x.jcachexZeroCopyGetCold,
whose trailing segment contains the profile token jcachexzerocopy. -/
theorem claim_C6_witness :
    (∃ k2 l2, (k2, l2) ∈ jcachex_profiles ∧
      occursInStr k2 (method_name "x.jcachexZeroCopyGetCold") = true ∧
      extract_cache_implementation "x.jcachexZeroCopyGetCold" = l2) ∧
    extract_cache_implementation "x.jcachexZeroCopyGetCold" ≠ "JCache" ∧
    occursInStr "jcache" "jcachexzerocopy" = true :=
  claim_C6_profile_precedence "x.jcachexZeroCopyGetCold" "jcachexzerocopy" "JCacheX-ZeroCopy"
    (by decide) (by decide)

/-! ## Helper lemmas about the gap computation -/

/-- For positive baseline and positive candidate at most the baseline, the
gap is "baseline/candidate x faster". -/
theorem gap_eval_faster (b c : ℚ) (hb : 0 < b) (hc : 0 < c) (h : c ≤ b) :
    calculate_performance_gap b c = Gap.faster (b / c) := by
  have h1 : ¬ b ≤ 0 := not_le.mpr hb
  have h2 : ¬ 1 < c / b := not_lt.mpr ((div_le_one hb).mpr h)
  have h3 : ¬ c / b = 0 := (div_pos hc hb).ne'
  simp only [calculate_performance_gap, if_neg h1, if_neg h2, if_neg h3, one_div_div]

/-- For positive baseline smaller than the candidate, the gap is
"candidate/baseline x slower". -/
theorem gap_eval_slower (b c : ℚ) (hb : 0 < b) (h : b < c) :
    calculate_performance_gap b c = Gap.slower (c / b) := by
  have h1 : ¬ b ≤ 0 := not_le.mpr hb
  have h2 : 1 < c / b := (one_lt_div hb).mpr h
  simp only [calculate_performance_gap, if_neg h1, if_pos h2]

/-- With both scores positive the gap computation never reaches the
division-by-zero branch. -/
theorem gap_no_fault (b c : ℚ) (hb : 0 < b) (hc : 0 < c) :
    calculate_performance_gap b c ≠ Gap.divZeroFault := by
  rcases le_or_lt c b with h | h
  · rw [gap_eval_faster b c hb hc h]
    simp
  · rw [gap_eval_slower b c hb h]
    simp

/-! ## Claim C7 -/

/-- Claim C7: in generate_gap_analysis, when baseline b and candidate c are
both positive the rendered gap is "ratio x faster" for c at most b and
"ratio x slower" for c above b, with ratio the quotient of the larger by the
smaller score; a zero baseline, a zero candidate, or a missing metric on
either side (stored as score 0 by the summary) renders the "N/A" sentinel;
and no cell of the gap analysis ever reaches the division-by-zero fault of
the Python expression 1/ratio. -/
theorem claim_C7_gap_sentinels :
    (∀ b c : ℚ, 0 < b → 0 < c → c ≤ b →
      gap_analysis_cell (some b) (some c)
        = GapCell.val (Gap.faster (max b c / min b c))) ∧
    (∀ b c : ℚ, 0 < b → 0 < c → b < c →
      gap_analysis_cell (some b) (some c)
        = GapCell.val (Gap.slower (max b c / min b c))) ∧
    (∀ c : Option ℚ, gap_analysis_cell (some 0) c = GapCell.na) ∧
    (∀ c : Option ℚ, gap_analysis_cell none c = GapCell.na) ∧
    (∀ b : Option ℚ, gap_analysis_cell b none = GapCell.na) ∧
    (∀ b c : Option ℚ, gap_analysis_cell b c ≠ GapCell.val Gap.divZeroFault) := by
  refine ⟨?_, ?_, ?_, ?_, ?_, ?_⟩
  · intro b c hb hc h
    have hs : summary_score (some b) = b := rfl
    have hs2 : summary_score (some c) = c := rfl
    rw [gap_analysis_cell, hs, hs2, if_pos ⟨hb, hc⟩, gap_eval_faster b c hb hc h,
      max_eq_left h, min_eq_right h]
  · intro b c hb hc h
    have hs : summary_score (some b) = b := rfl
    have hs2 : summary_score (some c) = c := rfl
    rw [gap_analysis_cell, hs, hs2, if_pos ⟨hb, hc⟩, gap_eval_slower b c hb h,
      max_eq_right h.le, min_eq_left h.le]
  · intro c
    simp [gap_analysis_cell, summary_score]
  · intro c
    simp [gap_analysis_cell, summary_score]
  · intro b
    simp [gap_analysis_cell, summary_score]
  · intro b c
    rw [gap_analysis_cell]
    split_ifs with h
    · intro hcontra
      have hg := GapCell.val.inj hcontra
      exact gap_no_fault _ _ h.1 h.2 hg
    · simp

/-- Witness for claim C7: concrete gap cells for a faster candidate, a slower
candidate, a zero baseline, a missing baseline, a missing candidate, and the
absence of the fault on a tied pair. -/
theorem claim_C7_witness :
    gap_analysis_cell (some 2) (some 1) = GapCell.val (Gap.faster (max 2 1 / min 2 1)) ∧
    gap_analysis_cell (some 1) (some 3) = GapCell.val (Gap.slower (max 1 3 / min 1 3)) ∧
    gap_analysis_cell (some 0) (some 5) = GapCell.na ∧
    gap_analysis_cell none (some 5) = GapCell.na ∧
    gap_analysis_cell (some 5) none = GapCell.na ∧
    gap_analysis_cell (some 2) (some 2) ≠ GapCell.val Gap.divZeroFault :=
  ⟨claim_C7_gap_sentinels.1 2 1 (by decide) (by decide) (by decide),
   claim_C7_gap_sentinels.2.1 1 3 (by decide) (by decide) (by decide),
   claim_C7_gap_sentinels.2.2.1 (some 5),
   claim_C7_gap_sentinels.2.2.2.1 (some 5),
   claim_C7_gap_sentinels.2.2.2.2.1 (some 5),
   claim_C7_gap_sentinels.2.2.2.2.2 (some 2) (some 2)⟩

/-! ## Claim C8 -/

/-- Counterexample for claim C8: at baseline 1 and candidate 1 (both
positive), both orders of the gap computation report "1.0x faster", so the
faster/slower directions are equal rather than swapped. -/
theorem claim_C8_counterexample :
    calculate_performance_gap 1 1 = Gap.faster 1 ∧
    directionSwapped (calculate_performance_gap 1 1) (calculate_performance_gap 1 1) = false := by
  have h : calculate_performance_gap 1 1 = Gap.faster 1 := by
    rw [gap_eval_faster 1 1 (by decide) (by decide) (by decide)]
    norm_num
  refine ⟨h, ?_⟩
  rw [h]
  decide

/-- Claim C8 as amended: for positive baseline b and candidate c, when b and c
differ the two orders of the gap computation report the same numeric ratio
with the faster/slower direction swapped; when b equals c both orders report
the boundary value "1.0x faster" (same ratio, same direction). -/
theorem claim_C8_amended (b c : ℚ) (hb : 0 < b) (hc : 0 < c) :
    (b ≠ c →
      ratioOfGap (calculate_performance_gap b c) = ratioOfGap (calculate_performance_gap c b) ∧
      directionSwapped (calculate_performance_gap b c) (calculate_performance_gap c b) = true) ∧
    (b = c → calculate_performance_gap b c = Gap.faster 1 ∧
      calculate_performance_gap c b = Gap.faster 1) := by
  constructor
  · intro hne
    rcases lt_or_gt_of_ne hne with h | h
    · rw [gap_eval_slower b c hb h, gap_eval_faster c b hc hb h.le]
      exact ⟨rfl, rfl⟩
    · rw [gap_eval_faster b c hb hc h.le, gap_eval_slower c b hc h]
      exact ⟨rfl, rfl⟩
  · intro he
    subst he
    have h1 : calculate_performance_gap b b = Gap.faster (b / b) :=
      gap_eval_faster b b hb hb le_rfl
    rw [div_self hb.ne'] at h1
    exact ⟨h1, h1⟩

/-- Witness for claim C8 as amended: baseline 3 and candidate 2 give the same
ratio in both orders with swapped directions. -/
theorem claim_C8_witness :
    ratioOfGap (calculate_performance_gap 3 2) = ratioOfGap (calculate_performance_gap 2 3) ∧
    directionSwapped (calculate_performance_gap 3 2) (calculate_performance_gap 2 3) = true :=
  (claim_C8_amended 3 2 (by decide) (by decide)).1 (by decide)

/-! ## Helper lemmas about the composite score -/

/-- Bounds for the weighted basic_operations block: with a nonnegative stored
GET latency its sum lies between 0 and 30. -/
theorem suite_contribution_bounds_basic (r : AggResults) (cache_impl : String)
    (hnn : ∀ q : ℚ, r.opScore "basic_operations" cache_impl "GET_LATENCY_1T" = some q → 0 ≤ q) :
    0 ≤ (suite_contribution r cache_impl "basic_operations" (3 / 10)).sum ∧
    (suite_contribution r cache_impl "basic_operations" (3 / 10)).sum ≤ 30 := by
  cases h1 : r.implInSuite "basic_operations" cache_impl with
  | false =>
    have hval : suite_contribution r cache_impl "basic_operations" (3 / 10) = [] := by
      simp [suite_contribution, h1]
    rw [hval]
    norm_num
  | true =>
    cases hop : r.opScore "basic_operations" cache_impl "GET_LATENCY_1T" with
    | none =>
      have hs : calculate_suite_score r cache_impl "basic_operations" = none := by
        simp [calculate_suite_score, hop]
      have hval : suite_contribution r cache_impl "basic_operations" (3 / 10) = [] := by
        simp [suite_contribution, h1, hs]
      rw [hval]
      norm_num
    | some l =>
      by_cases hl : l = 0
      · have hs : calculate_suite_score r cache_impl "basic_operations" = none := by
          simp [calculate_suite_score, hop, hl]
        have hval : suite_contribution r cache_impl "basic_operations" (3 / 10) = [] := by
          simp [suite_contribution, h1, hs]
        rw [hval]
        norm_num
      · have hs : calculate_suite_score r cache_impl "basic_operations"
            = some (max 0 (100 - l)) := by
          simp [calculate_suite_score, hop, hl]
        by_cases hz : max (0 : ℚ) (100 - l) = 0
        · have hval : suite_contribution r cache_impl "basic_operations" (3 / 10) = [] := by
            simp [suite_contribution, h1, hs, hz]
          rw [hval]
          norm_num
        · have hval : suite_contribution r cache_impl "basic_operations" (3 / 10)
              = [max 0 (100 - l) * (3 / 10)] := by
            simp [suite_contribution, h1, hs, hz]
          rw [hval]
          have hl0 : 0 ≤ l := hnn l hop
          have hub : max (0 : ℚ) (100 - l) ≤ 100 := max_le (by norm_num) (by linarith)
          have hlb : (0 : ℚ) ≤ max 0 (100 - l) := le_max_left 0 (100 - l)
          simp only [List.sum_cons, List.sum_nil, add_zero]
          constructor
          · linarith
          · linarith

/-- Bounds for the weighted throughput block: with a nonnegative stored
GET throughput its sum lies between 0 and 40. -/
theorem suite_contribution_bounds_throughput (r : AggResults) (cache_impl : String)
    (hnn : ∀ q : ℚ, r.opScore "throughput" cache_impl "GET_THROUGHPUT_1T" = some q → 0 ≤ q) :
    0 ≤ (suite_contribution r cache_impl "throughput" (4 / 10)).sum ∧
    (suite_contribution r cache_impl "throughput" (4 / 10)).sum ≤ 40 := by
  cases h1 : r.implInSuite "throughput" cache_impl with
  | false =>
    have hval : suite_contribution r cache_impl "throughput" (4 / 10) = [] := by
      simp [suite_contribution, h1]
    rw [hval]
    norm_num
  | true =>
    cases hop : r.opScore "throughput" cache_impl "GET_THROUGHPUT_1T" with
    | none =>
      have hs : calculate_suite_score r cache_impl "throughput" = none := by
        simp [calculate_suite_score, hop]
      have hval : suite_contribution r cache_impl "throughput" (4 / 10) = [] := by
        simp [suite_contribution, h1, hs]
      rw [hval]
      norm_num
    | some t =>
      by_cases ht0 : t = 0
      · have hs : calculate_suite_score r cache_impl "throughput" = none := by
          simp [calculate_suite_score, hop, ht0]
        have hval : suite_contribution r cache_impl "throughput" (4 / 10) = [] := by
          simp [suite_contribution, h1, hs]
        rw [hval]
        norm_num
      · have hs : calculate_suite_score r cache_impl "throughput"
            = some (min (t / 1000000) 100) := by
          simp [calculate_suite_score, hop, ht0]
        by_cases hz : min (t / 1000000) (100 : ℚ) = 0
        · have hval : suite_contribution r cache_impl "throughput" (4 / 10) = [] := by
            simp [suite_contribution, h1, hs, hz]
          rw [hval]
          norm_num
        · have hval : suite_contribution r cache_impl "throughput" (4 / 10)
              = [min (t / 1000000) 100 * (4 / 10)] := by
            simp [suite_contribution, h1, hs, hz]
          rw [hval]
          have ht1 : 0 ≤ t := hnn t hop
          have hlb : (0 : ℚ) ≤ min (t / 1000000) 100 :=
            le_min (div_nonneg ht1 (by norm_num)) (by norm_num)
          have hub : min (t / 1000000) (100 : ℚ) ≤ 100 := min_le_right _ _
          simp only [List.sum_cons, List.sum_nil, add_zero]
          constructor
          · linarith
          · linarith

/-- Bounds for the weighted concurrent_operations block: its sum is either 0
or the default 50 times 0.2. -/
theorem suite_contribution_bounds_concurrent (r : AggResults) (cache_impl : String) :
    0 ≤ (suite_contribution r cache_impl "concurrent_operations" (2 / 10)).sum ∧
    (suite_contribution r cache_impl "concurrent_operations" (2 / 10)).sum ≤ 10 := by
  cases h1 : r.implInSuite "concurrent_operations" cache_impl with
  | false =>
    have hval : suite_contribution r cache_impl "concurrent_operations" (2 / 10) = [] := by
      simp [suite_contribution, h1]
    rw [hval]
    norm_num
  | true =>
    have hs : calculate_suite_score r cache_impl "concurrent_operations" = some 50 := by
      simp [calculate_suite_score]
    have hval : suite_contribution r cache_impl "concurrent_operations" (2 / 10)
        = [50 * (2 / 10)] := by
      norm_num [suite_contribution, h1, hs]
    rw [hval]
    norm_num

/-- Bounds for the hardcore plus endurance block of the overall score: its
accumulator lies in 0..100 (each suite contributes the default 50 or 0), so
the block sums to between 0 and 5. -/
theorem hardcore_block_bounds (r : AggResults) (cache_impl : String) :
    0 ≤ (if 0 < hardcore_endurance_score r cache_impl then
          [hardcore_endurance_score r cache_impl / 2 * (1 / 10)] else []).sum ∧
    (if 0 < hardcore_endurance_score r cache_impl then
      [hardcore_endurance_score r cache_impl / 2 * (1 / 10)] else []).sum ≤ 5 := by
  have h50 : calculate_suite_score r cache_impl "hardcore_stress" = some 50 := by
    simp [calculate_suite_score]
  have h50e : calculate_suite_score r cache_impl "endurance_tests" = some 50 := by
    simp [calculate_suite_score]
  have hrange : 0 ≤ hardcore_endurance_score r cache_impl ∧
      hardcore_endurance_score r cache_impl ≤ 100 := by
    unfold hardcore_endurance_score
    rw [h50, h50e]
    cases r.implInSuite "hardcore_stress" cache_impl <;>
      cases r.implInSuite "endurance_tests" cache_impl <;>
        constructor <;> norm_num
  split_ifs with h
  · simp only [List.sum_cons, List.sum_nil, add_zero]
    constructor
    · linarith [hrange.1]
    · linarith [hrange.2]
  · norm_num

/-- Every pair in the overall_scores collection carries a defined (and
truthy) composite score of its implementation. -/
theorem mem_cross_suite_overall_scores (r : AggResults) (i : String) (s : ℚ)
    (h : (i, s) ∈ cross_suite_overall_scores r) :
    calculate_overall_score r i = some s ∧ s ≠ 0 ∧ i ∈ cache_implementations := by
  rw [cross_suite_overall_scores, List.mem_filterMap] at h
  obtain ⟨j, hj, heq⟩ := h
  cases hoj : calculate_overall_score r j with
  | none =>
    simp only [hoj] at heq
    exact Option.noConfusion heq
  | some t =>
    simp only [hoj] at heq
    by_cases ht : t = 0
    · rw [if_pos ht] at heq
      exact Option.noConfusion heq
    · rw [if_neg ht] at heq
      have h2 := Option.some.inj heq
      have hji : j = i := congrArg Prod.fst h2
      have hts : t = s := congrArg Prod.snd h2
      subst hji
      subst hts
      exact ⟨hoj, ht, hj⟩

/-! ## Claim C9 -/

/-- Counterexample for claim C9: an implementation with data in exactly one
suite can still have an undefined composite score — with only a
basic_operations record whose GET latency is 150, the suite score is
max(0, 100-150) = 0, which is falsy, so no weighted term is collected and the
overall score is None; moreover with a stored negative latency (storable per
claim C4) the composite evaluates to 330, above the claimed bound 100. -/
theorem claim_C9_counterexample :
    c9Results.implInSuite "basic_operations" "Caffeine" = true ∧
    c9Results.opScore "basic_operations" "Caffeine" "GET_LATENCY_1T" = some 150 ∧
    calculate_overall_score c9Results "Caffeine" = none ∧
    calculate_overall_score c9NegResults "Caffeine" = some 330 ∧
    ¬ ((330 : ℚ) ≤ 100) := by
  refine ⟨rfl, rfl, ?_, ?_, by norm_num⟩
  · have himpl : c9Results.implInSuite "basic_operations" "Caffeine" = true := rfl
    have hsuite : calculate_suite_score c9Results "Caffeine" "basic_operations"
        = some (max 0 (100 - 150)) := rfl
    have hmax : max (0 : ℚ) (100 - 150) = 0 := max_eq_left (by norm_num)
    have hsuite0 : calculate_suite_score c9Results "Caffeine" "basic_operations"
        = some 0 := hsuite.trans (congrArg some hmax)
    have hbasic : suite_contribution c9Results "Caffeine" "basic_operations" (3 / 10) = [] := by
      simp [suite_contribution, himpl, hsuite0]
    have hthr : suite_contribution c9Results "Caffeine" "throughput" (4 / 10) = [] := by
      have h : c9Results.implInSuite "throughput" "Caffeine" = false := rfl
      simp [suite_contribution, h]
    have hconc : suite_contribution c9Results "Caffeine" "concurrent_operations" (2 / 10)
        = [] := by
      have h : c9Results.implInSuite "concurrent_operations" "Caffeine" = false := rfl
      simp [suite_contribution, h]
    have hhard : hardcore_endurance_score c9Results "Caffeine" = 0 := by
      have h1 : c9Results.implInSuite "hardcore_stress" "Caffeine" = false := rfl
      have h2 : c9Results.implInSuite "endurance_tests" "Caffeine" = false := rfl
      simp [hardcore_endurance_score, h1, h2]
    simp [calculate_overall_score, overall_score_terms, hbasic, hthr, hconc, hhard]
  · have himpl : c9NegResults.implInSuite "basic_operations" "Caffeine" = true := rfl
    have hsuite : calculate_suite_score c9NegResults "Caffeine" "basic_operations"
        = some (max 0 (100 - -1000)) := rfl
    have hmax : max (0 : ℚ) (100 - -1000) = 1100 := by
      rw [max_eq_right (by norm_num : (0 : ℚ) ≤ 100 - -1000)]
      norm_num
    have hsuite0 : calculate_suite_score c9NegResults "Caffeine" "basic_operations"
        = some 1100 := hsuite.trans (congrArg some hmax)
    have hbasic : suite_contribution c9NegResults "Caffeine" "basic_operations" (3 / 10)
        = [1100 * (3 / 10)] := by
      norm_num [suite_contribution, himpl, hsuite0]
    have hthr : ∀ w : ℚ, suite_contribution c9NegResults "Caffeine" "throughput" w = [] := by
      intro w
      have h : c9NegResults.implInSuite "throughput" "Caffeine" = false := rfl
      simp [suite_contribution, h]
    have hconc : ∀ w : ℚ,
        suite_contribution c9NegResults "Caffeine" "concurrent_operations" w = [] := by
      intro w
      have h : c9NegResults.implInSuite "concurrent_operations" "Caffeine" = false := rfl
      simp [suite_contribution, h]
    have hhard : hardcore_endurance_score c9NegResults "Caffeine" = 0 := by
      have h1 : c9NegResults.implInSuite "hardcore_stress" "Caffeine" = false := rfl
      have h2 : c9NegResults.implInSuite "endurance_tests" "Caffeine" = false := rfl
      simp [hardcore_endurance_score, h1, h2]
    norm_num [calculate_overall_score, overall_score_terms, hbasic, hthr, hconc, hhard]

/-- Claim C9 as amended: whenever the composite score of an implementation is
defined and the stored suite scores it reads are nonnegative, it lies between
0 and 100 (the weights 0.30, 0.40, 0.20 and 0.10 of the four blocks in fact
cap it at 85); an implementation with no data in any suite has the undefined
composite score None; and an implementation with an undefined composite score
never enters the overall_scores collection from which the ranking is
produced. -/
theorem claim_C9_amended :
    (∀ (r : AggResults) (cache_impl : String),
      (∀ (suite_type key : String) (q : ℚ),
        r.opScore suite_type cache_impl key = some q → 0 ≤ q) →
      ∀ s : ℚ, calculate_overall_score r cache_impl = some s → 0 ≤ s ∧ s ≤ 100) ∧
    (∀ (r : AggResults) (cache_impl : String),
      (∀ suite_type : String, r.implInSuite suite_type cache_impl = false) →
      calculate_overall_score r cache_impl = none) ∧
    (∀ (r : AggResults) (cache_impl : String),
      calculate_overall_score r cache_impl = none →
      cache_impl ∉ (cross_suite_overall_scores r).map Prod.fst) := by
  refine ⟨?_, ?_, ?_⟩
  · intro r cache_impl hnn s hdef
    have hb := suite_contribution_bounds_basic r cache_impl
      (fun q h => hnn "basic_operations" "GET_LATENCY_1T" q h)
    have ht := suite_contribution_bounds_throughput r cache_impl
      (fun q h => hnn "throughput" "GET_THROUGHPUT_1T" q h)
    have hc := suite_contribution_bounds_concurrent r cache_impl
    have hh := hardcore_block_bounds r cache_impl
    rw [calculate_overall_score] at hdef
    by_cases hempty : overall_score_terms r cache_impl = []
    · rw [if_pos hempty] at hdef
      exact Option.noConfusion hdef
    · rw [if_neg hempty] at hdef
      have hsum := Option.some.inj hdef
      rw [overall_score_terms, List.sum_append, List.sum_append, List.sum_append] at hsum
      constructor
      · linarith [hb.1, ht.1, hc.1, hh.1]
      · linarith [hb.2, ht.2, hc.2, hh.2]
  · intro r cache_impl hno
    have hempty : ∀ (suite_type : String) (w : ℚ),
        suite_contribution r cache_impl suite_type w = [] := by
      intro suite_type w
      simp [suite_contribution, hno suite_type]
    have hhard : hardcore_endurance_score r cache_impl = 0 := by
      simp [hardcore_endurance_score, hno "hardcore_stress", hno "endurance_tests"]
    simp [calculate_overall_score, overall_score_terms, hempty, hhard]
  · intro r cache_impl hnone hmem
    rw [List.mem_map] at hmem
    obtain ⟨p, hin, hfst⟩ := hmem
    obtain ⟨i, s⟩ := p
    have h := mem_cross_suite_overall_scores r i s hin
    rw [show i = cache_impl from hfst] at h
    rw [hnone] at h
    exact Option.noConfusion h.1

/-- Witness for claim C9 as amended: an implementation with data only in
concurrent_operations (and no stored operation scores) has the defined
composite score 50 times 0.2 = 10, inside the bounds; and on the no-data
results the composite score of Caffeine is None, so Caffeine appears nowhere
in the ranking's overall_scores collection. -/
theorem claim_C9_witness :
    (calculate_overall_score c9WitnessResults "JCacheX-Default" = some (50 * (2 / 10)) ∧
      0 ≤ (50 * (2 / 10) : ℚ) ∧ (50 * (2 / 10) : ℚ) ≤ 100) ∧
    calculate_overall_score c9NoDataResults "Caffeine" = none ∧
    "Caffeine" ∉ (cross_suite_overall_scores c9NoDataResults).map Prod.fst := by
  have h1 : c9WitnessResults.implInSuite "basic_operations" "JCacheX-Default" = false := rfl
  have h2 : c9WitnessResults.implInSuite "throughput" "JCacheX-Default" = false := rfl
  have h3 : c9WitnessResults.implInSuite "concurrent_operations" "JCacheX-Default" = true := rfl
  have h4 : c9WitnessResults.implInSuite "hardcore_stress" "JCacheX-Default" = false := rfl
  have h5 : c9WitnessResults.implInSuite "endurance_tests" "JCacheX-Default" = false := rfl
  have hs : calculate_suite_score c9WitnessResults "JCacheX-Default" "concurrent_operations"
      = some 50 := by
    simp [calculate_suite_score]
  have hhard : hardcore_endurance_score c9WitnessResults "JCacheX-Default" = 0 := by
    simp [hardcore_endurance_score, h4, h5]
  have hover : calculate_overall_score c9WitnessResults "JCacheX-Default"
      = some (50 * (2 / 10)) := by
    norm_num [calculate_overall_score, overall_score_terms, suite_contribution,
      h1, h2, h3, hs, hhard]
  have hbounds := claim_C9_amended.1 c9WitnessResults "JCacheX-Default"
    (fun st k q h => absurd h (by simp [c9WitnessResults]))
    (50 * (2 / 10)) hover
  have hnone : calculate_overall_score c9NoDataResults "Caffeine" = none :=
    claim_C9_amended.2.1 c9NoDataResults "Caffeine" (fun _ => rfl)
  exact ⟨⟨hover, hbounds.1, hbounds.2⟩, hnone,
    claim_C9_amended.2.2 c9NoDataResults "Caffeine" hnone⟩
